import Mathlib

/-!
Verification development for the SoC power-hint daemon (socdaemon).

The definitions below are a shallow embedding of the daemon's coordinator
(`SocDaemon.cpp` / `SocDaemon.h`), of the CPU-load EMA estimator
(`SysLoadMonitor.cpp`), and of the per-iteration bodies of the WLT and GPU
sysfs monitor loops (`WltMonitor.cpp`, `GpuRc6Monitor.cpp`).

Modelling conventions:
* C++ `double` load values handled by the coordinator become `ℚ` (the
  coordinator only compares and subtracts them); the EMA estimator, whose
  specification involves `exp`, is modelled over `ℝ`.
* The coordinator's monitor pointers (`sysLoadMonitorPtr_`,
  `gpuRc6MonitorPtr_`) are modelled as non-null, i.e. all monitors
  initialized successfully (the normal configuration); the paused flags of
  the two controlled monitors are carried in the coordinator state.
* `pthread_create` for the lazily started GPU-monitor thread is modelled as
  succeeding.
* Loads sampled from `/proc/stat` (`getSysCpuLoad`) and the EMA snapshot
  (`getLatestSysCpuLoad`) are external inputs, so events carry them.
* `hintManager.sendHint(name, enable)` calls are recorded in an output list
  `sink`; its boolean result is ignored by all callers in the source.
-/

/-- `enum class CCGlobalState : int { Open = 0, CoreContainment = 1 }` from
`SocDaemon.h`. -/
inductive CCGlobalState : Type
  | Open
  | CoreContainment
deriving DecidableEq, Repr

/-- `enum class WltType : int { Idle = 0, Btl = 1, Sustain = 2, Bursty = 3 }`
from `SocDaemon.h`. -/
inductive WltType : Type
  | Idle
  | Btl
  | Sustain
  | Bursty
deriving DecidableEq, Repr

/-- `static_cast<WltType>(value & 0x3)` as used in
`SocDaemon::handleChangeAlert`.  Since 3 is a power-of-two mask, the
two's-complement bitwise AND equals the nonnegative remainder modulo 4. -/
def wltOfInt (value : Int) : WltType :=
  let bits := Int.emod value 4
  if bits = 0 then WltType.Idle
  else if bits = 1 then WltType.Btl
  else if bits = 2 then WltType.Sustain
  else WltType.Bursty

/-- The test `newValue & (1 << 4)` of the `swlt` branch: bit 4 of the
two's-complement representation, i.e. the parity of the floor quotient by
16. -/
def bit4IsSet (value : Int) : Bool :=
  Int.emod (Int.ediv value 16) 2 ≠ 0

/-- `static constexpr std::chrono::milliseconds kCCEntryDebounceMs{10000}`
from `SocDaemon.h`. -/
def kCCEntryDebounceMs : Nat := 10000

/-- `static constexpr double kSysloadSlopeThreshold = 5.0` from
`SocDaemon.h`, as a rational. -/
def kSysloadSlopeThreshold : ℚ := 5

/-- Daemon configuration fixed at construction: `sendHint_`, `sendGfxHint_`
and `socHint_` (`SocDaemon.h` / the `SocDaemon` constructor). -/
structure Config : Type where
  sendHint : Bool
  sendGfxHint : Bool
  socHint : String
deriving DecidableEq, Repr

/-- The mutable coordinator state of `SocDaemon`, together with the pause
flags of the two monitors it drives and the list of hints emitted to the
power-HAL sink.  Field-for-field:
* `ccState` is `CCGlobalState_`;
* `efficientMode` is `efficientMode_` (the cached last `EFFICIENT_POWER`
  value; the source compares the int hint value against this bool);
* `gfxMode` is `gfxMode_` (cached last `GFX_MODE` value);
* `entryActive` / `entryCancelled` are `ccEntryDebounceActive_` /
  `ccEntryDebounceCancelled_`;
* `exitActive` / `exitCancelled` / `exitDurationMs` are
  `ccExitDebounceActive_` / `ccExitDebounceCancelled_` /
  `ccExitDebounceMs_`;
* `latestSysCpuLoadCC` is `latestSysCpuLoadCC_`;
* `gpuThreadRunning` is `gpuMonitorThreadRunning_`;
* `gpuPaused` is the `paused_` flag of the `GpuRc6Monitor`;
* `sysLoadPaused` is the `samplerPaused_` flag of the `SysLoadMonitor`;
* `sink` records every `hintManager.sendHint` call as `(name, enable)`. -/
structure DState : Type where
  ccState : CCGlobalState
  efficientMode : Bool
  gfxMode : Bool
  entryActive : Bool
  entryCancelled : Bool
  exitActive : Bool
  exitCancelled : Bool
  exitDurationMs : Nat
  latestSysCpuLoadCC : ℚ
  gpuThreadRunning : Bool
  gpuPaused : Bool
  sysLoadPaused : Bool
  sink : List (String × Bool)
deriving DecidableEq, Repr

/-- The daemon state right after `SocDaemon::start()` has wired the normal
monitor set: state machine `Open`, `efficientMode_ = false` (header default),
no debounce timer armed, exit-debounce duration 1000 ms, `latestSysCpuLoadCC_
= 0.0`, the lazily started GPU-monitor thread flag clear, the GPU monitor
paused (`gpuMonitorPtr->pause()` in `start()`), the CPU-load sampler paused
(`SysLoadMonitor::init` starts it paused), and nothing emitted yet. -/
def initState : DState :=
  { ccState := CCGlobalState.Open
    efficientMode := false
    gfxMode := false
    entryActive := false
    entryCancelled := false
    exitActive := false
    exitCancelled := false
    exitDurationMs := 1000
    latestSysCpuLoadCC := 0
    gpuThreadRunning := false
    gpuPaused := true
    sysLoadPaused := true
    sink := [] }

/-- `SocDaemon::startCCEntryDebounceTimer` (the start-time field is timing
only and is not modelled). -/
def startCCEntryDebounceTimer (s : DState) : DState :=
  { s with entryActive := true, entryCancelled := false }

/-- `SocDaemon::stopCCEntryDebounceTimer`. -/
def stopCCEntryDebounceTimer (s : DState) : DState :=
  { s with entryActive := false, entryCancelled := true }

/-- `SocDaemon::startCCExitDebounceTimer(timeout)`. -/
def startCCExitDebounceTimer (timeoutMs : Nat) (s : DState) : DState :=
  { s with exitActive := true, exitCancelled := false, exitDurationMs := timeoutMs }

/-- `SocDaemon::stopCCExitDebounceTimer`. -/
def stopCCExitDebounceTimer (s : DState) : DState :=
  { s with exitActive := false, exitCancelled := true }

/-- `SocDaemon::sendHintIfAllowed(value, reason)`.  The hint is forwarded to
the sink only when `value != efficientMode_` and `sendHint_` is set; the
cached `efficientMode_` is updated whenever the value differs, and the
`SysLoadMonitor` is restarted (`samplerPaused_ := false`) when the new cached
value is 1 and paused (`samplerPaused_ := true`) when it is 0.  All call
sites pass only 0 or 1, so the int argument is modelled as `Bool`. -/
def sendHintIfAllowed (cfg : Config) (value : Bool) (s : DState) : DState :=
  if value ≠ s.efficientMode then
    { s with
      sink := if cfg.sendHint then s.sink ++ [("EFFICIENT_POWER", value)] else s.sink
      efficientMode := value
      sysLoadPaused := if value then false else true }
  else s

/-- `SocDaemon::sendGfxHintIfAllowed(value, reason)`: same gating against
`gfxMode_` and the `sendGfxHint_` flag, with no monitor coupling. -/
def sendGfxHintIfAllowed (cfg : Config) (value : Bool) (s : DState) : DState :=
  if value ≠ s.gfxMode then
    { s with
      sink := if cfg.sendGfxHint then s.sink ++ [("GFX_MODE", value)] else s.sink
      gfxMode := value }
  else s

/-- `if (gpuMonitorThreadRunning_ && gpuRc6MonitorPtr_) gpuRc6MonitorPtr_->pause()`
(the pointer is modelled as non-null). -/
def gpuPauseIfRunning (s : DState) : DState :=
  if s.gpuThreadRunning then { s with gpuPaused := true } else s

/-- `if (gpuMonitorThreadRunning_ && gpuRc6MonitorPtr_) gpuRc6MonitorPtr_->resume()`. -/
def gpuResumeIfRunning (s : DState) : DState :=
  if s.gpuThreadRunning then { s with gpuPaused := false } else s

/-- The `socHint_ == "wlt"` branch of `SocDaemon::handleChangeAlert` for a
`WltMonitor` callback.  `lat` is the value `getLatestSysCpuLoad()` returns
when the Idle/Btl → Sustain/Bursty snapshot is taken (the mid-handler
`getSysCpuLoad()` call only refreshes the EMA estimator and does not touch
coordinator state, so it has no effect here).  `pthread_create` for the lazy
GPU thread is modelled as succeeding. -/
def handleWltInWltMode (lat : ℚ) (oldValue newValue : Int) (s : DState) : DState :=
  let newWLT := wltOfInt newValue
  let oldWLT := wltOfInt oldValue
  if s.ccState = CCGlobalState.CoreContainment then
    let s1 :=
      if (oldWLT = WltType.Idle ∨ oldWLT = WltType.Btl) ∧
         (newWLT = WltType.Sustain ∨ newWLT = WltType.Bursty) then
        let s0 := { s with latestSysCpuLoadCC := lat }
        if ¬ s0.gpuThreadRunning then
          { s0 with gpuThreadRunning := true, gpuPaused := false }
        else
          { s0 with gpuPaused := false }
      else s
    match newWLT with
    | WltType.Idle | WltType.Btl =>
        let s2 := gpuPauseIfRunning s1
        if s2.exitActive then stopCCExitDebounceTimer s2 else s2
    | WltType.Sustain | WltType.Bursty =>
        let s2 := if ¬ s1.exitActive then startCCExitDebounceTimer 1000 s1 else s1
        gpuResumeIfRunning s2
  else
    match newWLT with
    | WltType.Idle | WltType.Btl =>
        let s1 :=
          if s.ccState = CCGlobalState.Open ∧ ¬ s.entryActive then
            startCCEntryDebounceTimer s
          else s
        gpuPauseIfRunning s1
    | WltType.Sustain =>
        let s1 := if s.entryActive then stopCCEntryDebounceTimer s else s
        gpuResumeIfRunning s1
    | WltType.Bursty => s

/-- The `socHint_ == "swlt"` branch of `SocDaemon::handleChangeAlert`:
`if (!(newValue & (1 << 4))) sendHintIfAllowed(0) else sendHintIfAllowed(1)`. -/
def handleWltInSwltMode (cfg : Config) (newValue : Int) (s : DState) : DState :=
  if bit4IsSet newValue = false then sendHintIfAllowed cfg false s
  else sendHintIfAllowed cfg true s

/-- The `if (name == "WltMonitor")` block of `SocDaemon::handleChangeAlert`. -/
def wltDispatch (cfg : Config) (lat : ℚ) (name : String) (oldValue newValue : Int)
    (s : DState) : DState :=
  if name = "WltMonitor" then
    if cfg.socHint = "wlt" then handleWltInWltMode lat oldValue newValue s
    else if cfg.socHint = "swlt" then handleWltInSwltMode cfg newValue s
    else s
  else s

/-- The `if (name == "HfiMonitor")` block of `SocDaemon::handleChangeAlert`. -/
def hfiDispatch (cfg : Config) (name : String) (newValue : Int) (s : DState) : DState :=
  if name = "HfiMonitor" then
    if newValue = 255 then sendHintIfAllowed cfg true s
    else sendHintIfAllowed cfg false s
  else s

/-- The `if (name == "SysLoadMonitor")` block of
`SocDaemon::handleChangeAlert`: exchange the state to `Open` and request
`EFFICIENT_POWER = 0` only when the exchanged-out value was *not*
`CoreContainment` (the guard as written in the source). -/
def sysLoadDispatch (cfg : Config) (name : String) (s : DState) : DState :=
  if name = "SysLoadMonitor" then
    let prev := s.ccState
    let sa := { s with ccState := CCGlobalState.Open }
    if prev ≠ CCGlobalState.CoreContainment then sendHintIfAllowed cfg false sa
    else sa
  else s

/-- The `if (name == "GpuRc6Monitor")` block of
`SocDaemon::handleChangeAlert`. -/
def gpuDispatch (cfg : Config) (name : String) (newValue : Int) (s : DState) : DState :=
  if name = "GpuRc6Monitor" then
    if newValue = 1 then sendGfxHintIfAllowed cfg true s
    else sendGfxHintIfAllowed cfg false s
  else s

/-- `SocDaemon::handleChangeAlert(name, oldValue, newValue)`: the four
sequential name tests of the source, in order. -/
def handleChangeAlert (cfg : Config) (lat : ℚ) (s : DState) (name : String)
    (oldValue newValue : Int) : DState :=
  gpuDispatch cfg name newValue
    (sysLoadDispatch cfg name
      (hfiDispatch cfg name newValue
        (wltDispatch cfg lat name oldValue newValue s)))

/-- The entry-debounce expiry processing of `SocDaemon::debounceThreadFunc`
(the `ccEntryDebounceActive_` block): the timer must be active for the block
to be entered; on wake the active flag is cleared; if the timer was not
cancelled the body samples the CPU load (`load`, an external input) and, when
it is below 25.0, exchanges the state to `CoreContainment` and requests
`EFFICIENT_POWER = 1` when that was a real transition. -/
def entryTimerExpiry (cfg : Config) (load : ℚ) (s : DState) : DState :=
  if s.entryActive then
    let s1 := { s with entryActive := false }
    if ¬ s1.entryCancelled then
      if load < 25 then
        let prev := s1.ccState
        let s2 := { s1 with ccState := CCGlobalState.CoreContainment }
        if prev ≠ CCGlobalState.CoreContainment then sendHintIfAllowed cfg true s2
        else s2
      else s1
    else { s1 with entryCancelled := false }
  else s

/-- The exit-debounce expiry processing of `SocDaemon::debounceThreadFunc`
(the `ccExitDebounceActive_` block): when not cancelled and still in
`CoreContainment`, compute `slope = load - latestSysCpuLoadCC_`; above the
threshold exchange the state to `Open` and request `EFFICIENT_POWER = 0`,
otherwise restart the exit timer with a 5000 ms duration. -/
def exitTimerExpiry (cfg : Config) (load : ℚ) (s : DState) : DState :=
  if s.exitActive then
    let s1 := { s with exitActive := false }
    if ¬ s1.exitCancelled then
      if s1.ccState = CCGlobalState.CoreContainment then
        let slope := load - s1.latestSysCpuLoadCC
        if slope > kSysloadSlopeThreshold then
          let prev := s1.ccState
          let s2 := { s1 with ccState := CCGlobalState.Open }
          if prev ≠ CCGlobalState.Open then sendHintIfAllowed cfg false s2
          else s2
        else startCCExitDebounceTimer 5000 s1
      else s1
    else { s1 with exitCancelled := false }
  else s

/-- An externally observable event of the coordinator: a monitor change
callback (carrying the `getLatestSysCpuLoad()` reading used by the WLT
handler), or the expiry of one of the two debounce timers (carrying the
`getSysCpuLoad()` reading its body samples). -/
inductive DEvent : Type
  | alert (name : String) (oldValue newValue : Int) (lat : ℚ)
  | entryExpiry (load : ℚ)
  | exitExpiry (load : ℚ)
deriving DecidableEq, Repr

/-- One coordinator step. -/
def step (cfg : Config) (s : DState) (e : DEvent) : DState :=
  match e with
  | DEvent.alert name oldValue newValue lat => handleChangeAlert cfg lat s name oldValue newValue
  | DEvent.entryExpiry load => entryTimerExpiry cfg load s
  | DEvent.exitExpiry load => exitTimerExpiry cfg load s

/-- The daemon state after processing a sequence of events from start. -/
def run (cfg : Config) (es : List DEvent) : DState :=
  List.foldl (step cfg) initState es

/-- The values sent to the sink for a given hint key, oldest first. -/
def emittedValues (key : String) (sink : List (String × Bool)) : List Bool :=
  List.map Prod.snd (List.filter (fun p => p.1 = key) sink)

/-- `static constexpr double kCpuEmaTimeConstantSec = 1.5` from
`SysLoadMonitor.cpp`. -/
noncomputable def kCpuEmaTimeConstantSec : ℝ := 1.5

/-- The process-wide EMA state of `SysLoadMonitor.cpp`: `g_cpuEmaValue`
(negative means not yet initialized, header initializes it to `-1.0`),
`g_cpuEmaValuePrev`, and `g_cpuEmaLastTs` (an instant, modelled as a real
number of seconds). -/
structure EmaState : Type where
  value : ℝ
  prev : ℝ
  lastTs : ℝ

/-- `applyEmaIrregularSample(rawPercent)` from `SysLoadMonitor.cpp`, with the
current instant `now` made explicit.  Returns the updated global state and
the function's return value. -/
noncomputable def applyEmaIrregularSample (now rawPercent : ℝ) (g : EmaState) :
    EmaState × ℝ :=
  let dt0 := now - g.lastTs
  let dt := if dt0 < 0 then 0 else dt0
  if rawPercent < 0 then
    ({ g with lastTs := now }, if g.value ≥ 0 then g.value else -1)
  else if g.value < 0 then
    ({ g with value := rawPercent, lastTs := now }, rawPercent)
  else
    let alpha0 := 1 - Real.exp (-dt / kCpuEmaTimeConstantSec)
    let alpha1 := if alpha0 < 0 then 0 else alpha0
    let alpha := if alpha1 > 1 then 1 else alpha1
    let newValue := g.value * (1 - alpha) + rawPercent * alpha
    ({ value := newValue, prev := g.value, lastTs := now }, newValue)

/-- Numeric value of a list of decimal digit characters. -/
def digitsVal (ds : List Char) : Nat :=
  List.foldl (fun a c => a * 10 + (c.toNat - 48)) 0 ds

/-- Whether a character is C `isspace` whitespace. -/
def isSpaceChar (c : Char) : Bool :=
  c = ' ' ∨ c = '\t' ∨ c = '\n' ∨ c = '\x0b' ∨ c = '\x0c' ∨ c = '\r'

/-- Model of `std::strtol(s.c_str(), &endptr, 10)` as used by the WLT and
GPU monitor loops: skip leading whitespace, consume an optional sign, then a
maximal run of decimal digits (overflow clamping is not modelled; the
monitors' counters are far below `LONG_MAX`).  The first component is the
returned value (0 when no digits were consumed) and the second is the
success test the monitors perform, `endptr != s.c_str() && *endptr == '\0'`,
i.e. at least one digit was consumed and the digits extend to the end of the
string. -/
def strtolModel (s : String) : Int × Bool :=
  let cs := List.dropWhile (fun c => isSpaceChar c) s.data
  let signAndRest : Int × List Char :=
    match cs with
    | '-' :: t => (-1, t)
    | '+' :: t => (1, t)
    | t => (1, t)
  let ds := List.takeWhile (fun c => c.isDigit) signAndRest.2
  let rest := List.dropWhile (fun c => c.isDigit) signAndRest.2
  (signAndRest.1 * (digitsVal ds : Int), !ds.isEmpty && rest.isEmpty)

/-- One iteration of the value-comparison body of `WltMonitor::monitorLoop`
(lines reading the sysfs value and dispatching the callback): given the
retained `previous_value` string and the freshly read `current_value`
string, returns the new `previous_value` and the `onValueChanged` call that
was dispatched, if any.  A failed `strtol` conversion is logged but the loop
still dispatches the callback with the (0-defaulted) converted values and
still updates `previous_value`. -/
def wltLoopIteration (previousValue currentValue : String) :
    String × Option (Int × Int) :=
  if currentValue ≠ previousValue then
    (currentValue, some ((strtolModel previousValue).1, (strtolModel currentValue).1))
  else (previousValue, none)

/-- `static constexpr int kGpuHighLoadPercent = 40` from `GpuRc6Monitor.h`. -/
def kGpuHighLoadPercent : ℚ := 40

/-- One iteration of the value-comparison body of
`GpuRc6Monitor::monitorLoop`: on a changed reading, convert both strings
with `strtol`, take `delta_idle = curr - prev` when `curr >= prev` and 0
otherwise, compute `percent = delta_idle * 100.0 / 1000.0`, clamp it to at
most 100, classify `gfxMode = 1` when the idle percentage is at most the
high-load threshold, and dispatch
`onValueChanged((int)idle_percent, gfxMode)`.  The `(int)` cast truncates
toward zero, which for the nonnegative `idle_percent` is the floor. -/
def gpuLoopIteration (previousValue currentValue : String) :
    String × Option (Int × Int) :=
  if currentValue ≠ previousValue then
    let prevVal := (strtolModel previousValue).1
    let currVal := (strtolModel currentValue).1
    let deltaIdle : Int := if prevVal ≤ currVal then currVal - prevVal else 0
    let percent : ℚ := Rat.divInt (deltaIdle * 100) 1000
    let idlePercent : ℚ := if percent > 100 then 100 else percent
    let gfxMode : Int := if idlePercent ≤ kGpuHighLoadPercent then 1 else 0
    (currentValue, some (Rat.floor idlePercent, gfxMode))
  else (previousValue, none)

/-- A daemon configuration in `wlt` mode with both hint-forwarding flags
enabled. -/
def cfgWlt : Config :=
  { sendHint := true, sendGfxHint := true, socHint := "wlt" }

/-- A daemon configuration in `swlt` mode with both hint-forwarding flags
enabled. -/
def cfgSwlt : Config :=
  { sendHint := true, sendGfxHint := true, socHint := "swlt" }

/-- A coordinator state inside core containment: `CCGlobalState_ =
CoreContainment`, the `EFFICIENT_POWER = 1` hint cached (as after containment
entry), the CPU-load sampler running, and the exit debounce timer armed. -/
def ccStateWithExitTimer : DState :=
  { initState with
    ccState := CCGlobalState.CoreContainment
    efficientMode := true
    sysLoadPaused := false
    exitActive := true }

example : wltOfInt 2 = WltType.Sustain := by decide
example : wltOfInt 18 = WltType.Sustain := by decide
example : wltOfInt (-1) = WltType.Bursty := by decide
example : bit4IsSet 18 = true := by decide
example : bit4IsSet 2 = false := by decide
example : bit4IsSet (-1) = true := by decide
example : strtolModel "1234" = (1234, true) := by decide
example : strtolModel "abc" = (0, false) := by decide
example : strtolModel " -42" = (-42, true) := by decide
example : strtolModel "12x" = (12, false) := by decide
example : wltLoopIteration "2" "abc" = ("abc", some (2, 0)) := by decide
example : gpuLoopIteration "500" "300" = ("300", some (0, 1)) := by decide
example : gpuLoopIteration "100" "350" = ("350", some (25, 1)) := by decide
example : gpuLoopIteration "100" "600" = ("600", some (50, 0)) := by decide
example : gpuLoopIteration "0" "99999" = ("99999", some (100, 0)) := by decide
/-- The `swlt`-mode WLT integer sequence 0x02, 0x12, 0x02 of the spec's
scenario 6, as coordinator events (the monitor reports `(old, new)` pairs
along the sequence, starting from its initial 0). -/
def swltScenarioEvents : List DEvent :=
  [DEvent.alert "WltMonitor" 0 2 0,
   DEvent.alert "WltMonitor" 2 18 0,
   DEvent.alert "WltMonitor" 18 2 0]

/-- **C1.**  Code behaviour at the claim's failing input.  In a state with
containment engaged (`CoreContainment`, cached `EFFICIENT_POWER = 1`, exit
debounce timer armed), a `SysLoadMonitor` change callback exchanges the state
to `Open`, but — because the guard `prev != CCGlobalState::CoreContainment`
in `SocDaemon::handleChangeAlert` requests the 0-hint exactly when the
exchange was *not* a CoreContainment → Open transition — no
`EFFICIENT_POWER = 0` hint is requested (the cached value stays 1 and nothing
reaches the sink), and the exit debounce timer is not cancelled.  The claim
says the hint is emitted exactly once and the timer is cancelled. -/
theorem C1_sysload_spike_in_cc_behaviour :
    (handleChangeAlert cfgWlt 0 ccStateWithExitTimer "SysLoadMonitor" 10 30).ccState
        = CCGlobalState.Open ∧
    (handleChangeAlert cfgWlt 0 ccStateWithExitTimer "SysLoadMonitor" 10 30).sink = [] ∧
    (handleChangeAlert cfgWlt 0 ccStateWithExitTimer "SysLoadMonitor" 10 30).efficientMode
        = true ∧
    (handleChangeAlert cfgWlt 0 ccStateWithExitTimer "SysLoadMonitor" 10 30).exitActive
        = true := by
  decide

/-- **C2, counterexample.**  The claim says an `EFFICIENT_POWER` emission
whose new value is 1 pauses the CPU-load monitor.  At the concrete input
(initial state, new value 1, a change since the cached value is 0) the code
leaves the sampler *resumed* (`samplerPaused_ = false`), because
`sendHintIfAllowed` calls `restart()` when the new cached value is 1 and
`pause()` when it is 0. -/
theorem C2_counterexample_pause_polarity :
    ¬ ((sendHintIfAllowed cfgWlt true initState).sysLoadPaused = true) := by
  decide

/-- **C2, amended.**  For every `EFFICIENT_POWER` hint request that changes
the cached value: if the new value is 1 the coordinator *resumes*
(`restart()`) the CPU-load monitor, and if the new value is 0 it *pauses*
it — the opposite polarity of the claim. -/
theorem C2_amended_resume_on_one_pause_on_zero (cfg : Config) (value : Bool)
    (s : DState) (h : value ≠ s.efficientMode) :
    (sendHintIfAllowed cfg value s).sysLoadPaused = !value := by
  unfold sendHintIfAllowed
  rw [if_pos h]
  cases value <;> rfl

/-- Witness for `C2_amended_resume_on_one_pause_on_zero` at the concrete
input of the counterexample. -/
theorem C2_amended_witness :
    (sendHintIfAllowed cfgWlt true initState).sysLoadPaused = !true :=
  C2_amended_resume_on_one_pause_on_zero cfgWlt true initState (by decide)

/-- **C8, counterexample.**  For the `swlt`-mode WLT integer sequence
0x02, 0x12, 0x02 from the daemon's initial state, the emitted
`EFFICIENT_POWER` values are *not* `false, true, false`: the first `false`
request is suppressed by hint gating because `efficientMode_` is initialized
to `false`. -/
theorem C8_counterexample_first_false_gated :
    ¬ (emittedValues "EFFICIENT_POWER" (run cfgSwlt swltScenarioEvents).sink
        = [false, true, false]) := by
  decide

/-- **C8, amended.**  In `swlt` mode each WLT callback maps statelessly: the
cached `EFFICIENT_POWER` value after the callback always equals bit 4 of the
new integer, and the sink receives that value exactly when it differs from
the previously cached value and forwarding is enabled.  For the sequence
0x02, 0x12, 0x02 from the initial state the sink therefore receives
`EFFICIENT_POWER = true` then `false`, each exactly once (the leading
`false` is gated away). -/
theorem C8_amended_swlt_stateless_mapping (cfg : Config) (s : DState)
    (oldValue newValue : Int) (lat : ℚ) (h : cfg.socHint = "swlt") :
    (handleChangeAlert cfg lat s "WltMonitor" oldValue newValue).efficientMode
        = bit4IsSet newValue ∧
    (handleChangeAlert cfg lat s "WltMonitor" oldValue newValue).sink =
      (if bit4IsSet newValue ≠ s.efficientMode ∧ cfg.sendHint = true then
         s.sink ++ [("EFFICIENT_POWER", bit4IsSet newValue)] else s.sink) ∧
    emittedValues "EFFICIENT_POWER" (run cfgSwlt swltScenarioEvents).sink
        = [true, false] := by
  refine ⟨?_, ?_, by decide⟩ <;>
  · simp only [handleChangeAlert, wltDispatch, hfiDispatch, sysLoadDispatch, gpuDispatch,
      handleWltInSwltMode, sendHintIfAllowed, h]
    norm_num
    rcases hb : bit4IsSet newValue <;>
      rcases he : s.efficientMode <;>
        rcases hs : cfg.sendHint <;>
          simp [hb, he, hs]

/-- Witness for `C8_amended_swlt_stateless_mapping` at a concrete input
(new value 0x12 from the initial state). -/
theorem C8_amended_witness :
    (handleChangeAlert cfgSwlt 0 initState "WltMonitor" 0 18).efficientMode
        = bit4IsSet 18 :=
  (C8_amended_swlt_stateless_mapping cfgSwlt initState 0 18 0 rfl).1

/-- **C9, counterexample.**  The claim says a sysfs value that fails integer
parsing is discarded with no callback and no state change.  For the WLT
monitor with retained previous value "2" and fresh read "abc": the
conversion of "abc" fails, yet the loop body still dispatches a callback and
still replaces the retained previous value. -/
theorem C9_counterexample_parse_error_still_dispatches :
    (strtolModel "abc").2 = false ∧
    ¬ ((wltLoopIteration "2" "abc").2 = none ∧ (wltLoopIteration "2" "abc").1 = "2") := by
  decide

/-- **C9, amended.**  On any changed reading — whether or not the strings
parse — both monitor loops log conversion failures but keep the sample: the
change callback is dispatched with the `strtol` results (0 for a failed
conversion) and the retained previous value is replaced by the new
reading. -/
theorem C9_amended_parse_error_sample_still_used (previousValue currentValue : String)
    (h : currentValue ≠ previousValue) :
    wltLoopIteration previousValue currentValue =
      (currentValue, some ((strtolModel previousValue).1, (strtolModel currentValue).1)) ∧
    (gpuLoopIteration previousValue currentValue).1 = currentValue ∧
    (gpuLoopIteration previousValue currentValue).2.isSome = true := by
  refine ⟨?_, ?_, ?_⟩ <;> simp [wltLoopIteration, gpuLoopIteration, h]

/-- Witness for `C9_amended_parse_error_sample_still_used` at the concrete
parse-failure input. -/
theorem C9_amended_witness :
    wltLoopIteration "2" "abc" =
      ("abc", some ((strtolModel "2").1, (strtolModel "abc").1)) :=
  (C9_amended_parse_error_sample_still_used "2" "abc" (by decide)).1

/-- `Rat.floor` agrees with the floor of the `FloorRing` structure on `ℚ`. -/
theorem ratFloor_eq_intFloor (q : ℚ) : Rat.floor q = ⌊q⌋ :=
  (Rat.floor_def' q).trans (@Rat.floor_def q).symm

/-- The clamp-then-floor computation of `GpuRc6Monitor::monitorLoop` never
exceeds 100. -/
theorem ratFloorClampLe (q : ℚ) : Rat.floor (if q > 100 then 100 else q) ≤ 100 := by
  rw [ratFloor_eq_intFloor]
  split
  · norm_num
  · rename_i h
    calc ⌊q⌋ ≤ ⌊(100 : ℚ)⌋ := Int.floor_mono (le_of_not_lt h)
      _ ≤ 100 := by norm_num

/-- **C10.**  In `GpuRc6Monitor::monitorLoop`, for every pair of successive
differing readings whose new counter value is not greater than the previous
one, the idle delta is 0, the computed idle percentage is 0, and the change
callback fires with `(0, gfx_mode = 1)`; moreover the idle percentage passed
to the callback never exceeds 100. -/
theorem C10_gpu_counter_reset_and_clamp :
    (∀ previousValue currentValue : String, currentValue ≠ previousValue →
        (strtolModel currentValue).1 ≤ (strtolModel previousValue).1 →
        gpuLoopIteration previousValue currentValue = (currentValue, some (0, 1))) ∧
    (∀ previousValue currentValue : String, ∀ r : Int × Int,
        (gpuLoopIteration previousValue currentValue).2 = some r → r.1 ≤ 100) := by
  constructor
  · intro p c hne hle
    have hd : (if (strtolModel p).1 ≤ (strtolModel c).1 then
        (strtolModel c).1 - (strtolModel p).1 else 0) = 0 := by
      split <;> omega
    simp only [gpuLoopIteration, hd, if_pos hne]
    norm_num [kGpuHighLoadPercent]
    decide
  · intro p c r hr
    by_cases hne : c ≠ p
    · simp only [gpuLoopIteration, if_pos hne] at hr
      have hr1 : r.1 = Rat.floor (if Rat.divInt
          ((if (strtolModel p).1 ≤ (strtolModel c).1 then
              (strtolModel c).1 - (strtolModel p).1 else 0) * 100) 1000 > 100 then 100
          else Rat.divInt ((if (strtolModel p).1 ≤ (strtolModel c).1 then
              (strtolModel c).1 - (strtolModel p).1 else 0) * 100) 1000) :=
        (congrArg Prod.fst (Option.some.inj hr)).symm
      rw [hr1]
      exact ratFloorClampLe _
    · simp only [gpuLoopIteration, if_neg hne] at hr
      exact absurd hr (by simp)

/-- Witness for `C10_gpu_counter_reset_and_clamp`: a counter decrease from
500 to 300 yields the callback `(0, 1)`, and its reported idle percentage is
at most 100. -/
theorem C10_witness :
    gpuLoopIteration "500" "300" = ("300", some (0, 1)) ∧ ((0 : Int), (1 : Int)).1 ≤ 100 :=
  ⟨C10_gpu_counter_reset_and_clamp.1 "500" "300" (by decide) (by decide),
   C10_gpu_counter_reset_and_clamp.2 "500" "300" (0, 1) (by decide)⟩

/-- The state of the coordinator with only the entry debounce timer armed
(as after a first WLT Idle observation in `Open`). -/
def entryArmedState : DState := { initState with entryActive := true }

/-- **C6.**  When the entry debounce timer expires un-cancelled while the
state machine is `Open` (with the `EFFICIENT_POWER` cache clear, as it is
whenever the daemon reached `Open` through the exit path, and hint
forwarding enabled): if the sampled load is below 25.0 the coordinator
transitions `Open → CoreContainment` and emits `EFFICIENT_POWER = 1`
exactly once; otherwise the state remains `Open` and nothing is emitted. -/
theorem C6_entry_expiry_low_load (cfg : Config) (s : DState) (load : ℚ)
    (hact : s.entryActive = true) (hcan : s.entryCancelled = false)
    (hopen : s.ccState = CCGlobalState.Open) (heff : s.efficientMode = false)
    (hsend : cfg.sendHint = true) :
    (load < 25 →
      (entryTimerExpiry cfg load s).ccState = CCGlobalState.CoreContainment ∧
      (entryTimerExpiry cfg load s).sink = s.sink ++ [("EFFICIENT_POWER", true)]) ∧
    (¬ load < 25 →
      (entryTimerExpiry cfg load s).ccState = CCGlobalState.Open ∧
      (entryTimerExpiry cfg load s).sink = s.sink) := by
  constructor
  · intro hload
    simp [entryTimerExpiry, sendHintIfAllowed, hact, hcan, hopen, heff, hsend, hload]
  · intro hload
    simp [entryTimerExpiry, hact, hcan, hopen, hload]

/-- Witness for `C6_entry_expiry_low_load`: entry expiry with load 10 in the
armed initial state enters containment and emits the 1-hint once. -/
theorem C6_witness :
    (entryTimerExpiry cfgWlt 10 entryArmedState).ccState = CCGlobalState.CoreContainment ∧
    (entryTimerExpiry cfgWlt 10 entryArmedState).sink =
      entryArmedState.sink ++ [("EFFICIENT_POWER", true)] :=
  (C6_entry_expiry_low_load cfgWlt entryArmedState 10 rfl rfl rfl rfl rfl).1 (by norm_num)

/-- **C7.**  When the exit debounce timer expires un-cancelled while the
state machine is in `CoreContainment` (with the `EFFICIENT_POWER` cache set,
as it is after containment entry, and hint forwarding enabled): if
`load - latestSysCpuLoadCC_` exceeds the slope threshold 5.0 the coordinator
transitions `CoreContainment → Open` and emits `EFFICIENT_POWER = 0` exactly
once; otherwise it re-arms the exit timer with a 5000 ms duration, emits
nothing, and stays in `CoreContainment`. -/
theorem C7_exit_expiry_slope (cfg : Config) (s : DState) (load : ℚ)
    (hact : s.exitActive = true) (hcan : s.exitCancelled = false)
    (hcc : s.ccState = CCGlobalState.CoreContainment) (heff : s.efficientMode = true)
    (hsend : cfg.sendHint = true) :
    (load - s.latestSysCpuLoadCC > kSysloadSlopeThreshold →
      (exitTimerExpiry cfg load s).ccState = CCGlobalState.Open ∧
      (exitTimerExpiry cfg load s).sink = s.sink ++ [("EFFICIENT_POWER", false)]) ∧
    (¬ load - s.latestSysCpuLoadCC > kSysloadSlopeThreshold →
      (exitTimerExpiry cfg load s).ccState = CCGlobalState.CoreContainment ∧
      (exitTimerExpiry cfg load s).sink = s.sink ∧
      (exitTimerExpiry cfg load s).exitActive = true ∧
      (exitTimerExpiry cfg load s).exitDurationMs = 5000) := by
  constructor
  · intro hslope
    simp [exitTimerExpiry, sendHintIfAllowed, hact, hcan, hcc, heff, hsend, hslope]
  · intro hslope
    simp [exitTimerExpiry, startCCExitDebounceTimer, hact, hcan, hcc, hslope]

/-- Witness for `C7_exit_expiry_slope`: exit expiry with load 20 against a
snapshot of 0 (slope 20) leaves containment and emits the 0-hint once. -/
theorem C7_witness :
    (exitTimerExpiry cfgWlt 20 ccStateWithExitTimer).ccState = CCGlobalState.Open ∧
    (exitTimerExpiry cfgWlt 20 ccStateWithExitTimer).sink =
      ccStateWithExitTimer.sink ++ [("EFFICIENT_POWER", false)] :=
  (C7_exit_expiry_slope cfgWlt ccStateWithExitTimer 20 rfl rfl rfl rfl rfl).1
    (by norm_num [kSysloadSlopeThreshold, ccStateWithExitTimer, initState])

/-- **C5.**  The irregular-interval EMA law of `applyEmaIrregularSample`:
for a defined (nonnegative) raw sample arriving `dt ≥ 0` seconds after the
previous update with the EMA initialized at `v`, the new value is
`v·(1−α) + raw·α` with `α = 1 − exp(−dt/1.5)` (the code's clamps of `α` to
`[0, 1]` are no-ops for `dt ≥ 0`); a sentinel (negative) raw sample leaves
the value unchanged and only refreshes the timestamp; and the first defined
raw sample (value still at its negative sentinel) sets the value to the raw
sample with no smoothing. -/
theorem C5_ema_irregular_law (g : EmaState) (now raw dt : ℝ)
    (hdt : now - g.lastTs = dt) (hdtpos : 0 ≤ dt) :
    (0 ≤ raw → 0 ≤ g.value →
      (applyEmaIrregularSample now raw g).1.value =
        g.value * (1 - (1 - Real.exp (-dt / 1.5))) + raw * (1 - Real.exp (-dt / 1.5))) ∧
    (raw < 0 →
      (applyEmaIrregularSample now raw g).1.value = g.value ∧
      (applyEmaIrregularSample now raw g).1.lastTs = now) ∧
    (0 ≤ raw → g.value < 0 →
      (applyEmaIrregularSample now raw g).1.value = raw) := by
  refine ⟨?_, ?_, ?_⟩
  · intro hraw hval
    have hnr : ¬ raw < 0 := not_lt.2 hraw
    have hnv : ¬ g.value < 0 := not_lt.2 hval
    have hndt : ¬ dt < 0 := not_lt.2 hdtpos
    have hexp1 : Real.exp (-dt / 1.5) ≤ 1 := by
      apply Real.exp_le_one_iff.mpr
      rw [neg_div]
      have hfrac : (0 : ℝ) ≤ dt / 1.5 := div_nonneg hdtpos (by norm_num)
      linarith
    have hexp0 : 0 < Real.exp (-dt / 1.5) := Real.exp_pos _
    have ha0 : ¬ (1 - Real.exp (-dt / 1.5) < 0) := by linarith
    have ha1 : ¬ (1 - Real.exp (-dt / 1.5) > 1) := by linarith
    simp only [applyEmaIrregularSample, kCpuEmaTimeConstantSec, hdt, if_neg hnr, if_neg hnv,
      if_neg hndt, if_neg ha0, if_neg ha1]
  · intro hraw
    simp only [applyEmaIrregularSample, if_pos hraw]
    exact ⟨trivial, trivial⟩
  · intro hraw hval
    have hnr : ¬ raw < 0 := not_lt.2 hraw
    simp only [applyEmaIrregularSample, if_neg hnr, if_pos hval]

/-- Witness for `C5_ema_irregular_law`: a raw sample of 30 arriving 2 s
after an EMA of 50. -/
theorem C5_witness :
    (applyEmaIrregularSample 2 30 ⟨50, -1, 0⟩).1.value =
      50 * (1 - (1 - Real.exp (-2 / 1.5))) + 30 * (1 - Real.exp (-2 / 1.5)) :=
  (C5_ema_irregular_law ⟨50, -1, 0⟩ 2 30 2 (by show (2 : ℝ) - 0 = 2; norm_num)
    (by norm_num)).1 (by norm_num) (by norm_num)

/-- **C4, counterexample.**  After the daemon's first WLT event — new value 2
(classification `Sustain`) in `Open` — the GPU monitor is still paused (it
starts paused and `gpuMonitorThreadRunning_` is still false, so the
`resume()` call is skipped), although the most recent WLT classification is
not in {Idle, Btl}.  This refutes both the claimed biconditional and the
claim that every Sustain/Bursty event resumes the monitor. -/
theorem C4_counterexample_sustain_does_not_resume :
    (run cfgWlt [DEvent.alert "WltMonitor" 0 2 0]).gpuPaused = true ∧
    ¬ (wltOfInt 2 = WltType.Idle ∨ wltOfInt 2 = WltType.Btl) := by
  decide

/-- **C4, amended.**  In `wlt` mode a WLT event changes the GPU monitor's
pause flag only when the `gpuMonitorThreadRunning_` flag is (or just
became) set; the flag becomes set exactly on an Idle/Btl → Sustain/Bursty
transition observed while in `CoreContainment`.  With the flag set, a new
classification in {Idle, Btl} pauses the monitor, `Sustain` resumes it, and
`Bursty` resumes it only in `CoreContainment` (in `Open` a Bursty event is a
no-op).  With the flag clear the pause state is untouched. -/
theorem C4_amended_gpu_pause_resume_gating (sendHintFlag sendGfxFlag : Bool)
    (s : DState) (oldValue newValue : Int) (lat : ℚ) :
    (handleChangeAlert (Config.mk sendHintFlag sendGfxFlag "wlt") lat s "WltMonitor"
        oldValue newValue).gpuThreadRunning
        = (s.gpuThreadRunning || decide (s.ccState = CCGlobalState.CoreContainment ∧
            (wltOfInt oldValue = WltType.Idle ∨ wltOfInt oldValue = WltType.Btl) ∧
            (wltOfInt newValue = WltType.Sustain ∨ wltOfInt newValue = WltType.Bursty))) ∧
    (handleChangeAlert (Config.mk sendHintFlag sendGfxFlag "wlt") lat s "WltMonitor"
        oldValue newValue).gpuPaused
        = (if (s.gpuThreadRunning || decide (s.ccState = CCGlobalState.CoreContainment ∧
              (wltOfInt oldValue = WltType.Idle ∨ wltOfInt oldValue = WltType.Btl) ∧
              (wltOfInt newValue = WltType.Sustain ∨ wltOfInt newValue = WltType.Bursty)))
              = true then
            (match wltOfInt newValue with
             | WltType.Idle => true
             | WltType.Btl => true
             | WltType.Sustain => false
             | WltType.Bursty =>
                 if s.ccState = CCGlobalState.CoreContainment then false else s.gpuPaused)
          else s.gpuPaused) := by
  have hdisp : handleChangeAlert (Config.mk sendHintFlag sendGfxFlag "wlt") lat s
      "WltMonitor" oldValue newValue = handleWltInWltMode lat oldValue newValue s := by
    simp [handleChangeAlert, wltDispatch, hfiDispatch, sysLoadDispatch, gpuDispatch]
  rw [hdisp]
  rcases hcc : s.ccState <;> rcases ho : wltOfInt oldValue <;> rcases hn : wltOfInt newValue <;>
    rcases hr : s.gpuThreadRunning <;>
      simp [handleWltInWltMode, gpuPauseIfRunning, gpuResumeIfRunning,
        startCCEntryDebounceTimer, stopCCEntryDebounceTimer, startCCExitDebounceTimer,
        stopCCExitDebounceTimer, hcc, ho, hn, hr, apply_ite]

/-- `emittedValues` distributes over appending sink records. -/
theorem emittedValues_append (key : String) (l1 l2 : List (String × Bool)) :
    emittedValues key (l1 ++ l2) = emittedValues key l1 ++ emittedValues key l2 := by
  simp [emittedValues, List.filter_append]

/-- Appending a record for a different key leaves a key's trace unchanged. -/
theorem emittedValues_append_other (key other : String) (v : Bool)
    (l : List (String × Bool)) (h : ¬ other = key) :
    emittedValues key (l ++ [(other, v)]) = emittedValues key l := by
  simp [emittedValues, List.filter_append, h]

/-- Appending a record for the same key appends its value to the trace. -/
theorem emittedValues_append_same (key : String) (v : Bool) (l : List (String × Bool)) :
    emittedValues key (l ++ [(key, v)]) = emittedValues key l ++ [v] := by
  simp [emittedValues, List.filter_append]

/-- A list pairwise-distinct in adjacent elements stays so after appending a
value different from the recorded last element. -/
theorem chainNeAppendSingle (l : List Bool) (v last : Bool)
    (hc : List.Chain' (fun a b => a ≠ b) l)
    (hl : ∀ x, l.getLast? = some x → x = last) (hv : v ≠ last) :
    List.Chain' (fun a b => a ≠ b) (l ++ [v]) := by
  rw [List.chain'_append]
  refine ⟨hc, List.chain'_singleton v, ?_⟩
  intro x hx y hy
  rw [Option.mem_def] at hx hy
  simp only [List.head?_cons, Option.some.injEq] at hy
  subst hy
  rw [hl x hx]
  exact fun hxy => hv hxy.symm

/-- The gating invariant carried along every coordinator trace: for each
hint key the emitted values are pairwise distinct in adjacent positions,
the last emitted value (if any) agrees with the coordinator's cached value,
and a cleared forwarding flag means nothing was ever emitted for that key. -/
def SinkInv (cfg : Config) (s : DState) : Prop :=
  List.Chain' (fun a b => a ≠ b) (emittedValues "EFFICIENT_POWER" s.sink) ∧
  (∀ x, (emittedValues "EFFICIENT_POWER" s.sink).getLast? = some x → x = s.efficientMode) ∧
  List.Chain' (fun a b => a ≠ b) (emittedValues "GFX_MODE" s.sink) ∧
  (∀ x, (emittedValues "GFX_MODE" s.sink).getLast? = some x → x = s.gfxMode) ∧
  (cfg.sendHint = false → emittedValues "EFFICIENT_POWER" s.sink = []) ∧
  (cfg.sendGfxHint = false → emittedValues "GFX_MODE" s.sink = [])

/-- Any state transformation that leaves the sink and the two cached hint
values untouched preserves the gating invariant. -/
theorem sinkInv_of_fields (cfg : Config) (s t : DState) (hs : t.sink = s.sink)
    (he : t.efficientMode = s.efficientMode) (hg : t.gfxMode = s.gfxMode)
    (h : SinkInv cfg s) : SinkInv cfg t := by
  unfold SinkInv at h ⊢
  rw [hs, he, hg]
  exact h

/-- `sendHintIfAllowed` preserves the gating invariant. -/
theorem sinkInv_sendHintIfAllowed (cfg : Config) (v : Bool) (s : DState)
    (h : SinkInv cfg s) : SinkInv cfg (sendHintIfAllowed cfg v s) := by
  obtain ⟨h1, h2, h3, h4, h5, h6⟩ := h
  unfold sendHintIfAllowed
  split
  · rename_i hne
    rcases hsend : cfg.sendHint
    · simp only [hsend, Bool.false_eq_true, if_false]
      refine ⟨h1, ?_, h3, h4, fun _ => h5 hsend, h6⟩
      intro x hx
      rw [h5 hsend] at hx
      cases hx
    · simp only [hsend, if_true]
      refine ⟨?_, ?_, ?_, ?_, ?_, ?_⟩
      · rw [emittedValues_append_same]
        exact chainNeAppendSingle _ v s.efficientMode h1 h2 hne
      · intro x hx
        rw [emittedValues_append_same, List.getLast?_concat] at hx
        exact (Option.some.inj hx).symm
      · rw [emittedValues_append_other _ _ _ _ (by decide)]
        exact h3
      · intro x hx
        rw [emittedValues_append_other _ _ _ _ (by decide)] at hx
        exact h4 x hx
      · intro hf
        rw [hsend] at hf
        cases hf
      · intro hg
        rw [emittedValues_append_other _ _ _ _ (by decide)]
        exact h6 hg
  · exact ⟨h1, h2, h3, h4, h5, h6⟩

/-- `sendGfxHintIfAllowed` preserves the gating invariant. -/
theorem sinkInv_sendGfxHintIfAllowed (cfg : Config) (v : Bool) (s : DState)
    (h : SinkInv cfg s) : SinkInv cfg (sendGfxHintIfAllowed cfg v s) := by
  obtain ⟨h1, h2, h3, h4, h5, h6⟩ := h
  unfold sendGfxHintIfAllowed
  split
  · rename_i hne
    rcases hsend : cfg.sendGfxHint
    · simp only [hsend, Bool.false_eq_true, if_false]
      refine ⟨h1, h2, h3, ?_, h5, fun _ => h6 hsend⟩
      intro x hx
      rw [h6 hsend] at hx
      cases hx
    · simp only [hsend, if_true]
      refine ⟨?_, ?_, ?_, ?_, ?_, ?_⟩
      · rw [emittedValues_append_other _ _ _ _ (by decide)]
        exact h1
      · intro x hx
        rw [emittedValues_append_other _ _ _ _ (by decide)] at hx
        exact h2 x hx
      · rw [emittedValues_append_same]
        exact chainNeAppendSingle _ v s.gfxMode h3 h4 hne
      · intro x hx
        rw [emittedValues_append_same, List.getLast?_concat] at hx
        exact (Option.some.inj hx).symm
      · intro hg
        rw [emittedValues_append_other _ _ _ _ (by decide)]
        exact h5 hg
      · intro hf
        rw [hsend] at hf
        cases hf
  · exact ⟨h1, h2, h3, h4, h5, h6⟩

/-- The `wlt`-mode WLT handler never touches the sink or the cached hint
values (it only manipulates timers, the GPU monitor and the snapshot). -/
theorem handleWltInWltMode_fields (lat : ℚ) (oldValue newValue : Int) (s : DState) :
    (handleWltInWltMode lat oldValue newValue s).sink = s.sink ∧
    (handleWltInWltMode lat oldValue newValue s).efficientMode = s.efficientMode ∧
    (handleWltInWltMode lat oldValue newValue s).gfxMode = s.gfxMode := by
  rcases hcc : s.ccState <;> rcases ho : wltOfInt oldValue <;> rcases hn : wltOfInt newValue <;>
    rcases hr : s.gpuThreadRunning <;>
      simp [handleWltInWltMode, gpuPauseIfRunning, gpuResumeIfRunning,
        startCCEntryDebounceTimer, stopCCEntryDebounceTimer, startCCExitDebounceTimer,
        stopCCExitDebounceTimer, hcc, ho, hn, hr, apply_ite]

/-- The WLT dispatch stage preserves the gating invariant. -/
theorem sinkInv_wltDispatch (cfg : Config) (lat : ℚ) (name : String)
    (oldValue newValue : Int) (s : DState) (h : SinkInv cfg s) :
    SinkInv cfg (wltDispatch cfg lat name oldValue newValue s) := by
  unfold wltDispatch
  split
  · split
    · have hf := handleWltInWltMode_fields lat oldValue newValue s
      exact sinkInv_of_fields cfg s _ hf.1 hf.2.1 hf.2.2 h
    · split
      · unfold handleWltInSwltMode
        split <;> exact sinkInv_sendHintIfAllowed cfg _ s h
      · exact h
  · exact h

/-- The HFI dispatch stage preserves the gating invariant. -/
theorem sinkInv_hfiDispatch (cfg : Config) (name : String) (newValue : Int)
    (s : DState) (h : SinkInv cfg s) : SinkInv cfg (hfiDispatch cfg name newValue s) := by
  unfold hfiDispatch
  split
  · split <;> exact sinkInv_sendHintIfAllowed cfg _ s h
  · exact h

/-- The SysLoad dispatch stage preserves the gating invariant. -/
theorem sinkInv_sysLoadDispatch (cfg : Config) (name : String) (s : DState)
    (h : SinkInv cfg s) : SinkInv cfg (sysLoadDispatch cfg name s) := by
  have hbase : SinkInv cfg { s with ccState := CCGlobalState.Open } :=
    sinkInv_of_fields cfg s _ rfl rfl rfl h
  simp only [sysLoadDispatch]
  split
  · split
    · exact sinkInv_sendHintIfAllowed cfg _ _ hbase
    · exact hbase
  · exact h

/-- The GPU dispatch stage preserves the gating invariant. -/
theorem sinkInv_gpuDispatch (cfg : Config) (name : String) (newValue : Int)
    (s : DState) (h : SinkInv cfg s) : SinkInv cfg (gpuDispatch cfg name newValue s) := by
  unfold gpuDispatch
  split
  · split <;> exact sinkInv_sendGfxHintIfAllowed cfg _ s h
  · exact h

/-- `SocDaemon::handleChangeAlert` preserves the gating invariant. -/
theorem sinkInv_handleChangeAlert (cfg : Config) (lat : ℚ) (s : DState) (name : String)
    (oldValue newValue : Int) (h : SinkInv cfg s) :
    SinkInv cfg (handleChangeAlert cfg lat s name oldValue newValue) := by
  unfold handleChangeAlert
  exact sinkInv_gpuDispatch cfg name newValue _
    (sinkInv_sysLoadDispatch cfg name _
      (sinkInv_hfiDispatch cfg name newValue _
        (sinkInv_wltDispatch cfg lat name oldValue newValue s h)))

/-- Entry-timer expiry preserves the gating invariant. -/
theorem sinkInv_entryTimerExpiry (cfg : Config) (load : ℚ) (s : DState)
    (h : SinkInv cfg s) : SinkInv cfg (entryTimerExpiry cfg load s) := by
  simp only [entryTimerExpiry]
  split
  · split
    · split
      · split
        · exact sinkInv_sendHintIfAllowed cfg _ _ (sinkInv_of_fields cfg s _ rfl rfl rfl h)
        · exact sinkInv_of_fields cfg s _ rfl rfl rfl h
      · exact sinkInv_of_fields cfg s _ rfl rfl rfl h
    · exact sinkInv_of_fields cfg s _ rfl rfl rfl h
  · exact h

/-- Exit-timer expiry preserves the gating invariant. -/
theorem sinkInv_exitTimerExpiry (cfg : Config) (load : ℚ) (s : DState)
    (h : SinkInv cfg s) : SinkInv cfg (exitTimerExpiry cfg load s) := by
  simp only [exitTimerExpiry]
  split
  · split
    · split
      · split
        · split
          · exact sinkInv_sendHintIfAllowed cfg _ _ (sinkInv_of_fields cfg s _ rfl rfl rfl h)
          · exact sinkInv_of_fields cfg s _ rfl rfl rfl h
        · exact sinkInv_of_fields cfg s _ rfl rfl rfl h
      · exact sinkInv_of_fields cfg s _ rfl rfl rfl h
    · exact sinkInv_of_fields cfg s _ rfl rfl rfl h
  · exact h

/-- Every coordinator step preserves the gating invariant. -/
theorem sinkInv_step (cfg : Config) (s : DState) (e : DEvent) (h : SinkInv cfg s) :
    SinkInv cfg (step cfg s e) := by
  rcases e with ⟨name, oldValue, newValue, lat⟩ | load | load
  · exact sinkInv_handleChangeAlert cfg lat s name oldValue newValue h
  · exact sinkInv_entryTimerExpiry cfg load s h
  · exact sinkInv_exitTimerExpiry cfg load s h

/-- The gating invariant holds in every reachable coordinator state. -/
theorem sinkInv_run (cfg : Config) (es : List DEvent) : SinkInv cfg (run cfg es) := by
  have hinit : SinkInv cfg initState := by
    refine ⟨?_, ?_, ?_, ?_, ?_, ?_⟩ <;> simp [initState, emittedValues]
  unfold run
  have hstep : ∀ (l : List DEvent) (s : DState), SinkInv cfg s →
      SinkInv cfg (List.foldl (step cfg) s l) := by
    intro l
    induction l with
    | nil => intro s hs; exact hs
    | cons e es ih =>
        intro s hs
        rw [List.foldl_cons]
        exact ih _ (sinkInv_step cfg s e hs)
  exact hstep es initState hinit

/-- **C3.**  Hint gating: along every event trace, adjacent values actually
emitted to the sink differ for each hint key; with `sendHint_` disabled no
`EFFICIENT_POWER` sink call is ever made (likewise `sendGfxHint_` for
`GFX_MODE`); and disabling the flag changes nothing of the cache update —
`efficientMode_` after a request is the same as with the flag enabled, while
the sink stays untouched. -/
theorem C3_hint_gating_invariant (cfg : Config) (es : List DEvent) (v : Bool) (s : DState) :
    List.Chain' (fun a b => a ≠ b) (emittedValues "EFFICIENT_POWER" (run cfg es).sink) ∧
    List.Chain' (fun a b => a ≠ b) (emittedValues "GFX_MODE" (run cfg es).sink) ∧
    (cfg.sendHint = false → emittedValues "EFFICIENT_POWER" (run cfg es).sink = []) ∧
    (cfg.sendGfxHint = false → emittedValues "GFX_MODE" (run cfg es).sink = []) ∧
    (sendHintIfAllowed (Config.mk false cfg.sendGfxHint cfg.socHint) v s).efficientMode =
      (sendHintIfAllowed (Config.mk true cfg.sendGfxHint cfg.socHint) v s).efficientMode ∧
    (sendHintIfAllowed (Config.mk false cfg.sendGfxHint cfg.socHint) v s).sink = s.sink := by
  obtain ⟨h1, h2, h3, h4, h5, h6⟩ := sinkInv_run cfg es
  refine ⟨h1, h3, h5, h6, ?_, ?_⟩
  · by_cases hv : v ≠ s.efficientMode <;> simp [sendHintIfAllowed, hv]
  · by_cases hv : v ≠ s.efficientMode <;> simp [sendHintIfAllowed, hv]

/-- Witness for `C3_hint_gating_invariant`: with forwarding disabled, a trace
that would otherwise emit the 1-hint leaves the sink empty. -/
theorem C3_witness :
    emittedValues "EFFICIENT_POWER"
      (run (Config.mk false true "wlt")
        [DEvent.alert "WltMonitor" 0 0 0, DEvent.entryExpiry 10]).sink = [] :=
  (C3_hint_gating_invariant (Config.mk false true "wlt")
    [DEvent.alert "WltMonitor" 0 0 0, DEvent.entryExpiry 10] true initState).2.2.1 rfl
